import Mathlib

/-!
# Verification of the go-i18n runtime localization module

Shallow embedding of the `i18n` Go package (files `i18n.go`, `enums.go`,
`structs.go`, the options-based revision embedded alongside the tests, and the
slice-callback revision) together with proofs about its claimed behaviour.

Modelling conventions:
* `language.Tag` is opaque and only compared for equality; it is modelled as a
  `String`.
* External collaborators (the catalog adapter `go-i18n/v2`'s
  `Localizer.Localize` and `Bundle.LoadMessageFile`, the Accept-Language parser
  of `golang.org/x/text/language`, the file system) are modelled as function
  parameters (oracles), exactly as the design consumes them through narrow
  function-shaped interfaces.
* Go run-time panics (nil-pointer dereference, slice index out of range,
  explicit `panic`) are modelled as `Except RuntimePanic _` results.
* Log sinks are external functions; calls to them are modelled as returning
  no-ops (a caller-configured sink that aborts, such as the default
  `log.Fatalf`, is outside the returning-functions model and is noted where
  relevant).
* Go `uint32` arithmetic is carried out on `Nat` modulo `2^32`.
* Iteration over a Go `map` has unspecified order; dispatch over the callback
  map is therefore parameterised by an enumeration of the map's entries,
  constrained in theorems to be a permutation of the stored association list.
-/

set_option autoImplicit false

namespace GoI18n

/-- A Go run-time panic, as an explicit error value. -/
inductive RuntimePanic where
  /-- dereference of a nil pointer -/
  | nilDeref : RuntimePanic
  /-- slice index out of range -/
  | indexOutOfRange : RuntimePanic
  /-- an explicit `panic(msg)` call -/
  | explicitPanic (msg : String) : RuntimePanic
  deriving DecidableEq, Repr

/-- `Lang` (structs.go): a language package descriptor.  `language.Tag` is
modelled as a `String` compared for equality. -/
structure Lang where
  Name : String
  Tag : String
  fileName : String
  deriving DecidableEq, Repr

/-- `Data` (i18n.go): template-variable map (of caller-chosen type `α`, a Go
`map[string]interface{}` value, possibly the nil map) together with a plural
count. -/
structure Data (α : Type) where
  Data : α
  PluralCount : Int

/-! ## Label Parser

`readLangLabel` applies the compiled regular expression
`# \[i18n\] <(.*)> <(.*)>` to the first line of a package file, via
`MatchString` / `FindStringSubmatch`.  The matcher below is that regular
expression specialised: Go's `regexp` uses leftmost-first (Perl) semantics, so
the match starts at the leftmost position where the whole pattern matches,
each `(.*)` is greedy (backtracking from the longest), and `.` matches any
character except a newline. -/

/-- The literal part `# [i18n] <` that precedes the first capture group. -/
def labelLit : List Char := "# [i18n] <".data

/-- The literal `> <` separating the two capture groups. -/
def sepLit : List Char := "> <".data

/-- `matchLit pat s`: does `s` start with the literal characters `pat`? -/
def matchLit : List Char → List Char → Bool
  | [], _ => true
  | _ :: _, [] => false
  | p :: ps, c :: cs => p == c && matchLit ps cs

/-- A cut of the first group at length `l` succeeds when the separator `> <`
follows and a closing `>` occurs somewhere after it. -/
def goodSplit (t : List Char) (l : Nat) : Bool :=
  matchLit sepLit (t.drop l) && (t.drop (l + 3)).contains '>'

/-- Greedy length of the first capture group: the largest cut that lets the
rest of the pattern match (backtracking from the longest). -/
def group1Len (t : List Char) : Option Nat :=
  (List.range (t.length + 1)).reverse.find? (goodSplit t)

/-- The second capture group: everything up to the last closing `>` (greedy
`(.*)` before the final literal `>`). -/
def tailGroup (u : List Char) : List Char :=
  u.take (u.length - 1 - u.reverse.findIdx (fun c => c == '>'))

/-- Try to match the whole pattern starting exactly here. -/
def matchLabelAt (s : List Char) : Option (List Char × List Char) :=
  if matchLit labelLit s then
    let t := s.drop labelLit.length
    match group1Len t with
    | some l => some (t.take l, tailGroup (t.drop (l + 3)))
    | none => none
  else none

/-- Leftmost match: scan start positions left to right. -/
def scanLabel : List Char → Option (List Char × List Char)
  | [] => none
  | c :: rest =>
    match matchLabelAt (c :: rest) with
    | some r => some r
    | none => scanLabel rest

/-- `ReadLangLabel` / `readLangLabel`'s pure core: submatches 1 and 2 of the
label pattern on the first line, or the empty list when the pattern does not
match.  A match never crosses a newline (`.` excludes `\n`), and the input is
one `ReadString('\n')` line, so scanning stops at the first newline. -/
def ReadLangLabel (topLine : String) : List String :=
  match scanLabel (topLine.data.takeWhile (fun c => c ≠ '\n')) with
  | some (g1, g2) => [⟨g1⟩, ⟨g2⟩]
  | none => []

/-- `parseTags`: Accept-Language parsing is delegated to
`golang.org/x/text/language.ParseAcceptLanguage`, modelled by the oracle
`acc`; on a parse error the empty tag list is returned. -/
def parseTags (acc : String → Except String (List String)) (lang : String) :
    List String :=
  match acc lang with
  | .error _ => []
  | .ok t => t

/-! ## Resolution (`Localize` and the `T`/`TC`/`TData`/`TCData` family)

The package-level `Localizer` pointer is `none` before initialization; the
catalog adapter's `Localize` method is the oracle `res`.  Calling the method
through a nil `*Localizer` dereferences the nil receiver inside the adapter
and panics. -/

/-- `Localize` (i18n.go): delegate to the adapter; on adapter error log and
return the caller-supplied default text. -/
def Localize {α L : Type} (loc : Option L)
    (res : L → String → α → Int → Except String String)
    (defaultLocalized id : String) (data : α) (pluralCount : Int) :
    Except RuntimePanic String :=
  match loc with
  | none => .error .nilDeref
  | some l =>
    match res l id data pluralCount with
    | .error _ => .ok defaultLocalized
    | .ok localized => .ok localized

/-- `TCData` (i18n.go): unpack the optional `*Data`; a nil pointer yields the
nil template map (`nilMap`) and plural count 0. -/
def TCData {α L : Type} (nilMap : α) (loc : Option L)
    (res : L → String → α → Int → Except String String)
    (defaultLocalized id : String) (data : Option (Data α)) :
    Except RuntimePanic String :=
  match data with
  | some d => Localize loc res defaultLocalized id d.Data d.PluralCount
  | none => Localize loc res defaultLocalized id nilMap 0

/-- `TData` (i18n.go). -/
def TData {α L : Type} (nilMap : α) (loc : Option L)
    (res : L → String → α → Int → Except String String)
    (id : String) (data : Option (Data α)) : Except RuntimePanic String :=
  TCData nilMap loc res "" id data

/-- `TC` (i18n.go). -/
def TC {α L : Type} (nilMap : α) (loc : Option L)
    (res : L → String → α → Int → Except String String)
    (defaultLocalized id : String) : Except RuntimePanic String :=
  Localize loc res defaultLocalized id nilMap 0

/-- `T` (i18n.go). -/
def T {α L : Type} (nilMap : α) (loc : Option L)
    (res : L → String → α → Int → Except String String)
    (id : String) : Except RuntimePanic String :=
  TC nilMap loc res "" id

/-! ## Switch-Notification Registry (i18n.go)

`callbackDataMap` is a Go `map[uint32]*CallbackData`.  It is modelled as an
association list with unique keys kept in insertion order; Go's unspecified
map-iteration order is modelled by quantifying over enumerations of that list.
A callback is an opaque effect identified by a `Nat` token; invoking it emits
its token.  A nil function pointer is `none`. -/

/-- `CallbackData` (i18n.go). -/
structure CallbackData where
  CallbackId : Nat
  NotOrigin : Bool
  Callback : Option Nat
  deriving DecidableEq, Repr

/-- Go map lookup `m[k]`. -/
def mapLookup : List (Nat × CallbackData) → Nat → Option CallbackData
  | [], _ => none
  | (k, v) :: rest, key => if k = key then some v else mapLookup rest key

/-- Go map assignment `m[k] = v`: overwrite the existing key or add a new one. -/
def mapInsert : List (Nat × CallbackData) → Nat → CallbackData →
    List (Nat × CallbackData)
  | [], k, v => [(k, v)]
  | (k', v') :: rest, k, v =>
    if k' = k then (k, v) :: rest else (k', v') :: mapInsert rest k v

/-- The package-level mutable variables of i18n.go that the claims concern.
`Localizer` holds the tag a `NewLocalizer` call received plus a generation
counter standing for the object's identity; `bundleFiles` records the message
files successfully loaded into the bundle. -/
structure I18nState where
  Localizer : Option String := none
  localizerGen : Nat := 0
  Language : Option Lang := none
  DefaultLang : Option Lang := none
  Languages : List Lang := []
  bundleTag : String := ""
  bundleFiles : List String := []
  callbackDataMap : List (Nat × CallbackData) := []
  currentCallbackDataId : Nat := 0
  deriving DecidableEq, Repr

/-- `getNewCallbackDataId` (i18n.go): `atomic.AddUint32(&currentCallbackDataId, 1)`,
a `uint32` increment. -/
def getNewCallbackDataId (id : Nat) : Nat := (id + 1) % 4294967296

/-- `AddSwitchCallback` (i18n.go): if the map already holds the new entry's
`CallbackId` as a key, log (when the existing entry is not `NotOrigin`) and
return without inserting; otherwise increment the counter and store the entry
under the freshly incremented counter value. -/
def AddSwitchCallback (s : I18nState) (data : CallbackData) : I18nState :=
  match mapLookup s.callbackDataMap data.CallbackId with
  | some _ => s
  | none =>
    let newId := getNewCallbackDataId s.currentCallbackDataId
    { s with
      currentCallbackDataId := newId,
      callbackDataMap := mapInsert s.callbackDataMap newId data }

/-- `SwitchLanguage` (i18n.go): load the descriptor's message file into the
bundle (`load` is the bundle's `LoadMessageFile`, an adapter oracle); on load
error log and return early; on success install a fresh localizer, set the
active language, and invoke every callback in the map in Go's unspecified
map-enumeration order `iterOrder`.  Returns the new state and the tokens of
the callbacks invoked, in invocation order. -/
def SwitchLanguage (load : String → Except String Unit)
    (iterOrder : List (Nat × CallbackData)) (s : I18nState) (lang : Lang) :
    I18nState × List Nat :=
  match load lang.fileName with
  | .error _ => (s, [])
  | .ok _ =>
    let s1 := { s with
      bundleFiles := s.bundleFiles ++ [lang.fileName],
      Localizer := some lang.Tag,
      localizerGen := s.localizerGen + 1,
      Language := some lang }
    (s1, iterOrder.filterMap (fun kv => kv.2.Callback))

/-! ## The slice-based revision (src/unnamed/part_000)

There the registry is a plain slice `SwitchCallbacks []func()` appended to by
`AddSwitchCallback` and iterated front to back by `SwitchLanguage`. -/

namespace SliceRev

/-- `SwitchCallbacks` entries: an opaque callback token, or `none` for a nil
function value (the dispatch loop skips nil entries). -/
structure State where
  Localizer : Option String := none
  localizerGen : Nat := 0
  Language : Option Lang := none
  SwitchCallbacks : List (Option Nat) := []
  bundleFiles : List String := []
  deriving DecidableEq, Repr

/-- `AddSwitchCallback` (part_000): `append`. -/
def AddSwitchCallback (s : State) (callback : Option Nat) : State :=
  { s with SwitchCallbacks := s.SwitchCallbacks ++ [callback] }

/-- `SwitchLanguage` (part_000): identical to the map revision except that the
callbacks are a slice, iterated in order. -/
def SwitchLanguage (load : String → Except String Unit) (s : State)
    (lang : Lang) : State × List Nat :=
  match load lang.fileName with
  | .error _ => (s, [])
  | .ok _ =>
    let s1 := { s with
      bundleFiles := s.bundleFiles ++ [lang.fileName],
      Localizer := some lang.Tag,
      localizerGen := s.localizerGen + 1,
      Language := some lang }
    (s1, s.SwitchCallbacks.filterMap id)

end SliceRev

/-! ## File-system and adapter oracles

Globbing, file reading, Accept-Language parsing and the bundle's load/parse
entry points are external collaborators, bundled into one record of oracles.
`readLine` models `bufio.Reader.ReadString('\n')`: the first line's content
and whether a non-nil error (no newline before EOF) came with it. -/

structure FileEnv where
  glob : String → Except String (List String)
  openOk : String → Bool
  readLine : String → String × Bool
  accept : String → Except String (List String)
  loadFile : String → Except String Unit
  parseBytes : String → String → Except String Unit

/-- `SimplifiedChinese` (i18n.go); the tag is its string form. -/
def SimplifiedChinese : Lang := { Name := "zh-Hans", Tag := "zh-Hans", fileName := "" }

/-- `English` (i18n.go). -/
def English : Lang := { Name := "en", Tag := "en", fileName := "" }

/-! ## Initialization, file-pattern revision (i18n.go) -/

/-- `readLangLabel` (i18n.go): open the file (a failed open panics), read the
first line ignoring the read error, and apply the label pattern. -/
def readLangLabel (env : FileEnv) (fileName : String) :
    Except RuntimePanic (List String) :=
  if env.openOk fileName then .ok (ReadLangLabel (env.readLine fileName).1)
  else .error (.explicitPanic "readLangLabel open error")

/-- How `initI18n`'s discovery loop ends: the `return` statement after a
failed load of the default language's file, or normal loop completion. -/
inductive LoopExit where
  | earlyReturn (s : I18nState)
  | completed (s : I18nState)
  deriving Repr

/-- The `for _, langFile := range languages` body of `initI18n` (i18n.go):
skip files with an unparsable label; build the descriptor (indexing
`parseTags(labels[0])[0]` panics when the tag list is empty); the first
descriptor matching the default language's tag is loaded and becomes active
(prepended to `Languages`), every other descriptor is appended. -/
def initI18nLoop (env : FileEnv) : List String → I18nState →
    Except RuntimePanic LoopExit
  | [], s => .ok (.completed s)
  | langFile :: rest, s =>
    match readLangLabel env langFile with
    | .error p => .error p
    | .ok labels =>
      match labels with
      | l0 :: l1 :: _ =>
        match (parseTags env.accept l0).head? with
        | none => .error .indexOutOfRange
        | some tag =>
          let lang : Lang := { Name := l1, Tag := tag, fileName := langFile }
          let isDefault : Bool := s.Language.isNone &&
            s.DefaultLang.elim false (fun d => d.Tag == tag)
          if isDefault then
            let s1 := { s with Language := some lang }
            match env.loadFile langFile with
            | .error _ => .ok (.earlyReturn s1)
            | .ok _ =>
              initI18nLoop env rest { s1 with
                bundleFiles := s1.bundleFiles ++ [langFile],
                Localizer := some tag,
                localizerGen := s1.localizerGen + 1,
                Languages := lang :: s1.Languages }
          else
            initI18nLoop env rest { s with Languages := s.Languages ++ [lang] }
      | _ => initI18nLoop env rest s

/-- `initI18n` (i18n.go): fresh bundle for the requested tag, glob (a glob
error is only logged, execution continues with the nil slice), run the
discovery loop, and panic when no language became active. -/
def initI18n (env : FileEnv) (lang : Lang) (langFilesPattern : String)
    (s : I18nState) : Except RuntimePanic I18nState :=
  let s0 := { s with bundleTag := lang.Tag, bundleFiles := [] }
  let files := match env.glob langFilesPattern with
    | .error _ => []
    | .ok fs => fs
  match initI18nLoop env files s0 with
  | .error p => .error p
  | .ok (.earlyReturn s') => .ok s'
  | .ok (.completed s') =>
    if s'.Language = none then
      .error (.explicitPanic "[i18n] Cannot load any language")
    else .ok s'

/-- `InitI18nWithConfig` (i18n.go): default the format, decoder and pattern;
when no language is requested, log `"Not special language, default using
DefaultLang.Name ..."` — dereferencing the package-level `DefaultLang`
pointer, which panics when no default was ever set — and fall back to
`SimplifiedChinese`; record the resolved language via `SetDefaultLang` and run
`initI18n`.  Log sinks and the decoder are external and not observable here. -/
def InitI18nWithConfig (env : FileEnv) (lang? : Option Lang)
    (format0 langFilesPattern0 : String) (s : I18nState) :
    Except RuntimePanic I18nState :=
  let _format := if format0.length = 0 then "lang" else format0
  let pattern := if langFilesPattern0.length = 0 then "./lang/*.lang"
    else langFilesPattern0
  match lang? with
  | none =>
    match s.DefaultLang with
    | none => .error .nilDeref
    | some _ =>
      let lang := SimplifiedChinese
      initI18n env lang pattern { s with DefaultLang := some lang }
  | some lang =>
    initI18n env lang pattern { s with DefaultLang := some lang }

/-! ## The options-based revision

`InitI18nWithOptions`, `PackageListByPatternFunc`, `ReadLangFromFileName`,
`LoadLanguage` and `UseLanguage` (the revision kept next to the tests,
together with enums.go / structs.go). -/

namespace OptRev

/-- `Lang` (structs.go): descriptor with an optional in-memory package buffer
(`Data *[]byte`, contents opaque). -/
structure Lang where
  Name : String
  Tag : String
  FileName : String
  Data : Option String := none
  deriving DecidableEq, Repr

/-- `English` in this revision. -/
def English : Lang := { Name := "en", Tag := "en", FileName := "" }

/-- `OptionType` (enums.go). -/
inductive OptType where
  | logInfoFunc | logErrorFunc | unmarshalFunc | packageSuffix
  | packagePath | packagePattern | packageListFunc | defaultUseSystemLanguage
  deriving DecidableEq, Repr

/-- `Option` (structs.go): a tagged option.  `Data` models the `*interface{}`
payload for the string-valued kinds (`none` stands for a nil pointer or an
ill-typed payload, whose type assertion panics); `plist` models a
`PackageListFunc` callback payload, invoked with the final discovery
pattern. -/
structure GoOption where
  OptionType : OptType
  Data : Option String := none
  plist : Option (String → Except String (List Lang)) := none

/-- Model of Go `filepath.Join` on the two already-clean components this
module joins: concatenation with a separator (the real `Join` also cleans the
result, which is the identity on the arguments used here). -/
def pathJoin (a b : String) : String :=
  if a.length = 0 then b else a ++ "/" ++ b

/-- Model of Go `filepath.Join` on a single argument, which `Clean`s it: the
only effect on the patterns used here is dropping a leading `./`. -/
def pathClean (s : String) : String :=
  if s.data.take 2 = ['.', '/'] then ⟨s.data.drop 2⟩ else s

/-- The configuration accumulated by `InitI18nWithOptions`'s option loop. -/
structure OptResult where
  format : String
  langFilesPattern : String
  existPackagePath : Bool
  plist : Option (String → Except String (List Lang))

/-- One iteration of the option `switch` in `InitI18nWithOptions`:
`PackageSuffix` sets the format and, when a path was seen, rebuilds the
pattern by joining `(*option.Data).(string)` — the suffix itself — with
`"*." + format`; `PackagePath` derives the pattern from the path and the
current format; `PackagePattern` overwrites the pattern; kinds without a case
fall through to `default: continue`.  Log-sink and decoder options replace
external functions and are not otherwise observable. -/
def processOption (acc : OptResult) (option : GoOption) :
    Except RuntimePanic OptResult :=
  match option.OptionType with
  | .logInfoFunc => .ok acc
  | .logErrorFunc => .ok acc
  | .unmarshalFunc => .ok acc
  | .packageSuffix =>
    match option.Data with
    | none => .error .nilDeref
    | some s =>
      .ok { acc with
        format := s,
        langFilesPattern := if acc.existPackagePath then pathJoin s ("*." ++ s)
          else acc.langFilesPattern }
  | .packagePath =>
    match option.Data with
    | none => .error .nilDeref
    | some p =>
      .ok { acc with
        langFilesPattern := pathJoin p ("*." ++ acc.format),
        existPackagePath := true }
  | .packagePattern =>
    match option.Data with
    | none => .error .nilDeref
    | some s => .ok { acc with langFilesPattern := s }
  | .packageListFunc => .ok { acc with plist := option.plist }
  | .defaultUseSystemLanguage => .ok acc

/-- The whole option loop, started from the defaults `format = "lang"` and
`langFilesPattern = path.Join("./lang/*." + format)`. -/
def processOptions (options : List GoOption) : Except RuntimePanic OptResult :=
  options.foldlM processOption
    { format := "lang", langFilesPattern := pathClean "./lang/*.lang",
      existPackagePath := false, plist := none }

/-- `ReadLangFromFileName` (options revision): a failed open panics; a failed
first-line read or an unmatched label skips the file (`nil`); a label whose
tag string parses to no tag panics on `parseTags(labels[0])[0]`. -/
def ReadLangFromFileName (env : FileEnv) (fileName : String) :
    Except RuntimePanic (Option Lang) :=
  if env.openOk fileName then
    let rd := env.readLine fileName
    if rd.2 then .ok none
    else
      match ReadLangLabel rd.1 with
      | l0 :: l1 :: _ =>
        match (parseTags env.accept l0).head? with
        | none => .error .indexOutOfRange
        | some tag =>
          .ok (some { Name := l1, Tag := tag, FileName := fileName })
      | _ => .ok none
  else .error (.explicitPanic "ReadLangFromFileName open error")

/-- The `for _, langFile := range packages` loop of
`PackageListByPatternFunc`: skipped files contribute nothing, the rest are
accumulated in order. -/
def packageLoop (env : FileEnv) : List String → Except RuntimePanic (List Lang)
  | [] => .ok []
  | f :: rest =>
    match ReadLangFromFileName env f with
    | .error p => .error p
    | .ok none => packageLoop env rest
    | .ok (some lang) =>
      match packageLoop env rest with
      | .error p => .error p
      | .ok ls => .ok (lang :: ls)

/-- `PackageListByPatternFunc` (options revision): take the last
`PackagePattern` option, fail on an empty pattern or a glob error, then run
the per-file loop. -/
def PackageListByPatternFunc (env : FileEnv) (options : List GoOption) :
    Except RuntimePanic (Except String (List Lang)) :=
  match (options.foldlM (fun acc (o : GoOption) =>
      match o.OptionType with
      | .packagePattern =>
        match o.Data with
        | none => Except.error RuntimePanic.nilDeref
        | some s => Except.ok s
      | _ => Except.ok acc) "" : Except RuntimePanic String) with
  | .error p => .error p
  | .ok pat =>
    if pat.length = 0 then .ok (.error "[i18n] PackageList cannot find pattern")
    else
      match env.glob pat with
      | .error e => .ok (.error ("[i18n] PackageList Glob error: " ++ e))
      | .ok packages =>
        match packageLoop env packages with
        | .error p => .error p
        | .ok langs => .ok (.ok langs)

/-- The package-level state this revision mutates. -/
structure State where
  Localizer : Option String := none
  localizerGen : Nat := 0
  Language : Option Lang := none
  DefaultLang : Option Lang := none
  Languages : List Lang := []
  bundleTag : String := ""
  bundleFiles : List String := []

/-- The discovery dispatch of `InitI18nWithOptions`: the configured
`packageListFunc` when a `PackageListFunc` option supplied one, otherwise
`PackageListByPatternFunc`; either one is invoked with the final pattern
wrapped in a `PackagePattern` option. -/
def runPackageList (env : FileEnv) (opt : OptResult) :
    Except RuntimePanic (Except String (List Lang)) :=
  match opt.plist with
  | none => PackageListByPatternFunc env
      [{ OptionType := .packagePattern, Data := some opt.langFilesPattern }]
  | some f => .ok (f opt.langFilesPattern)

/-- `LoadLanguage` (options revision): parse the in-memory buffer when
present, otherwise load the file; a success adds the message file to the
bundle, an error is wrapped and returned. -/
def LoadLanguage (env : FileEnv) (lang : Lang) (s : State) :
    State × Option String :=
  let r := match lang.Data with
    | some buf => env.parseBytes buf lang.FileName
    | none => env.loadFile lang.FileName
  match r with
  | .error e => (s, some ("[i18n] Load language file error: " ++ e))
  | .ok _ => ({ s with bundleFiles := s.bundleFiles ++ [lang.FileName] }, none)

/-- `UseLanguage` (options revision): sets the active language first, then
loads; on a load error the error is returned (with `Language` already
updated); on success a fresh localizer is installed. -/
def UseLanguage (env : FileEnv) (lang : Lang) (s : State) :
    State × Option String :=
  let s1 := { s with Language := some lang }
  match LoadLanguage env lang s1 with
  | (s2, some e) => (s2, some e)
  | (s2, none) =>
    ({ s2 with Localizer := some lang.Tag, localizerGen := s2.localizerGen + 1 },
      none)

/-- The `for _, l := range Languages` selection loop of
`InitI18nWithOptions`: the first descriptor with the requested tag is used
(an error from `UseLanguage` is returned), then the loop breaks. -/
def useLoop (env : FileEnv) (lang : Lang) : List Lang → State →
    State × Option String
  | [], s => (s, none)
  | l :: rest, s =>
    if lang.Tag = l.Tag then UseLanguage env l s
    else useLoop env lang rest s

/-- `InitI18nWithOptions` (options revision): process the options; default a
nil requested language to `English` (logging with the local `lang`, not the
package default); record the default language and a fresh bundle; run the
configured or default discovery with the final pattern (a discovery error
panics); store the result as `Languages` and panic when it is empty;
otherwise activate the first descriptor matching the requested tag.  Returns
the final state and the `error` return value. -/
def InitI18nWithOptions (env : FileEnv) (lang? : Option Lang)
    (options : List GoOption) (s : State) :
    Except RuntimePanic (State × Option String) :=
  match processOptions options with
  | .error p => .error p
  | .ok opt =>
    let lang := match lang? with
      | none => English
      | some l => l
    let s0 := { s with
      DefaultLang := some lang,
      bundleTag := lang.Tag,
      bundleFiles := [] }
    match runPackageList env opt with
    | .error p => .error p
    | .ok (.error e) => .error (.explicitPanic ("[i18n] PackageList error: " ++ e))
    | .ok (.ok packageList) =>
      let s1 := { s0 with Languages := packageList }
      if s1.Languages.length = 0 then
        .error (.explicitPanic "[i18n] Cannot load any language")
      else
        .ok (useLoop env lang packageList s1)

end OptRev

/-! ## Concrete environments for witness runs -/

/-- Two package files: `bad.lang` has a well-formed label whose tag string
`!!!` the Accept-Language parser rejects; `good.lang` is fully valid. -/
def testEnv : FileEnv where
  glob := fun _ => .ok ["bad.lang", "good.lang"]
  openOk := fun _ => true
  readLine := fun f =>
    if f = "bad.lang" then ("# [i18n] <!!!> <Bad>\n", false)
    else ("# [i18n] <en> <English>\n", false)
  accept := fun s => if s = "en" then .ok ["en"] else .error "parse error"
  loadFile := fun _ => .ok ()
  parseBytes := fun _ _ => .ok ()

/-- One file without a label line (`plain.txt`) alongside a valid package. -/
def plainEnv : FileEnv where
  glob := fun _ => .ok ["plain.txt", "good.lang"]
  openOk := fun _ => true
  readLine := fun f =>
    if f = "plain.txt" then ("hello", false)
    else ("# [i18n] <en> <English>\n", false)
  accept := fun s => if s = "en" then .ok ["en"] else .error "parse error"
  loadFile := fun _ => .ok ()
  parseBytes := fun _ _ => .ok ()

/-- `LoadLanguage` never touches the `Languages` list. -/
theorem loadLanguage_preserves_languages (env : FileEnv) (l : OptRev.Lang)
    (s : OptRev.State) :
    (OptRev.LoadLanguage env l s).1.Languages = s.Languages := by
  simp only [OptRev.LoadLanguage]
  split <;> rfl

/-- `UseLanguage` never touches the `Languages` list. -/
theorem useLanguage_preserves_languages (env : FileEnv) (l : OptRev.Lang)
    (s : OptRev.State) :
    (OptRev.UseLanguage env l s).1.Languages = s.Languages := by
  simp only [OptRev.UseLanguage]
  have h := loadLanguage_preserves_languages env l { s with Language := some l }
  rcases hl : OptRev.LoadLanguage env l { s with Language := some l } with ⟨s2, e?⟩
  rw [hl] at h
  cases e? <;> simpa using h

/-- `useLoop` only ever updates the active language, the localizer and the
bundle; the `Languages` list it scans is left alone. -/
theorem useLoop_preserves_languages (env : FileEnv) (lang : OptRev.Lang)
    (ls : List OptRev.Lang) (s : OptRev.State) :
    (OptRev.useLoop env lang ls s).1.Languages = s.Languages := by
  induction ls generalizing s with
  | nil => rfl
  | cons l rest ih =>
    simp only [OptRev.useLoop]
    split
    · exact useLanguage_preserves_languages env l s
    · exact ih s

/-! ## Claims -/

/-- C1: when the descriptor's catalog content fails to load, `SwitchLanguage`
logs the load error and returns early, invoking no registered callback and
leaving the whole package state — in particular the active `Language` and the
`Localizer` — exactly as it was before the call. -/
theorem switchLanguage_failed_load_preserves_state
    (load : String → Except String Unit) (iterOrder : List (Nat × CallbackData))
    (s : I18nState) (lang : Lang) (e : String)
    (h : load lang.fileName = .error e) :
    SwitchLanguage load iterOrder s lang = (s, []) := by
  simp [SwitchLanguage, h]

/-- Witness for C1: a concrete switch whose load fails changes nothing. -/
theorem switchLanguage_failed_load_preserves_state_witness :
    SwitchLanguage (fun _ => .error "no such file")
      [(1, ⟨0, false, some 10⟩)]
      { callbackDataMap := [(1, ⟨0, false, some 10⟩)], currentCallbackDataId := 1 }
      English
      = ({ callbackDataMap := [(1, ⟨0, false, some 10⟩)], currentCallbackDataId := 1 }, []) :=
  switchLanguage_failed_load_preserves_state _ _ _ _ "no such file" rfl

/-- C2: whenever the catalog adapter's resolution errors (identifier missing,
template/plural mismatch), `Localize` — and through it `TC`, `TCData`, and
`T`/`TData` with their empty default — returns the caller-supplied default
text instead of propagating the error. -/
theorem localize_adapter_error_returns_default {α L : Type} (nilMap : α)
    (l : L) (res : L → String → α → Int → Except String String)
    (defaultLocalized id : String) (d : α) (n : Int) (e e0 : String)
    (h : res l id d n = .error e)
    (h0 : res l id nilMap 0 = .error e0) :
    Localize (some l) res defaultLocalized id d n = .ok defaultLocalized ∧
    TCData nilMap (some l) res defaultLocalized id (some ⟨d, n⟩) = .ok defaultLocalized ∧
    TCData nilMap (some l) res defaultLocalized id none = .ok defaultLocalized ∧
    TData nilMap (some l) res id (some ⟨d, n⟩) = .ok "" ∧
    TC nilMap (some l) res defaultLocalized id = .ok defaultLocalized ∧
    T nilMap (some l) res id = .ok "" := by
  simp [Localize, TCData, TData, TC, T, h, h0]

/-- Witness for C2: a concrete resolver that knows no identifier. -/
theorem localize_adapter_error_returns_default_witness :
    Localize (some ()) (fun _ _ _ _ => (.error "message greeting not found" : Except String String))
      "fallback" "greeting" () 0 = .ok "fallback" :=
  (localize_adapter_error_returns_default () ()
    (fun _ _ _ _ => .error "message greeting not found") "fallback" "greeting"
    () 0 "message greeting not found" "message greeting not found" rfl rfl).1

/-- C3 fails on the code: `AddSwitchCallback` stores each entry under a
freshly incremented counter key but checks the incoming entry's `CallbackId`
against those counter keys, so registering the same non-derived callback id
(here the default id 0) twice inserts it twice — the registry ends with two
entries carrying that id, not one. -/
theorem addSwitchCallback_duplicate_id_inserted_twice :
    (AddSwitchCallback (AddSwitchCallback {} ⟨0, false, some 7⟩)
        ⟨0, false, some 7⟩).callbackDataMap
      = [(1, ⟨0, false, some 7⟩), (2, ⟨0, false, some 7⟩)] ∧
    ((AddSwitchCallback (AddSwitchCallback {} ⟨0, false, some 7⟩)
        ⟨0, false, some 7⟩).callbackDataMap.countP
      (fun kv => kv.2.CallbackId == 0)) = 2 := by
  decide

/-- C8 fails on the code: after `PackagePath "/langs"`, the later
`PackageSuffix "txt"` option rebuilds the discovery pattern by joining the
*suffix* string — `(*option.Data).(string)` of the suffix option — with
`"*.txt"`, yielding `txt/*.txt`; the previously set path `/langs` is not
retained anywhere, so the claimed `/langs/*.txt` is not produced. -/
theorem packageSuffix_after_path_joins_suffix_not_path :
    (OptRev.processOptions
        [⟨.packagePath, some "/langs", none⟩, ⟨.packageSuffix, some "txt", none⟩]).map
      (fun r => (r.format, r.langFilesPattern, r.existPackagePath))
      = .ok ("txt", "txt/*.txt", true) ∧
    ("txt/*.txt" : String) ≠ "/langs/*.txt" :=
  ⟨rfl, by decide⟩

/-- C9: before any successful initialization the package-level `Localizer`
pointer is nil; every resolution entry point then dereferences it and panics
with a nil-pointer dereference. -/
theorem localize_nil_localizer_panics {α L : Type} (nilMap : α)
    (res : L → String → α → Int → Except String String)
    (defaultLocalized id : String) (d : α) (n : Int) (data? : Option (Data α)) :
    Localize (none : Option L) res defaultLocalized id d n = .error .nilDeref ∧
    TCData nilMap (none : Option L) res defaultLocalized id data? = .error .nilDeref ∧
    TData nilMap (none : Option L) res id data? = .error .nilDeref ∧
    TC nilMap (none : Option L) res defaultLocalized id = .error .nilDeref ∧
    T nilMap (none : Option L) res id = .error .nilDeref := by
  refine ⟨rfl, ?_, ?_, rfl, rfl⟩ <;> cases data? <;> rfl

/-- C10: `InitI18nWithConfig` with a nil requested language logs
`"Not special language, default using %s (%s)"` with `DefaultLang.Name` and
`DefaultLang.Tag`; when `SetDefaultLang` has never run, `DefaultLang` is nil
and that dereference panics before any default is recorded. -/
theorem initI18nWithConfig_nil_lang_nil_default_panics (env : FileEnv)
    (format0 pattern0 : String) (s : I18nState) (h : s.DefaultLang = none) :
    InitI18nWithConfig env none format0 pattern0 s = .error .nilDeref := by
  simp [InitI18nWithConfig, h]

/-- Witness for C10: a fresh state, no default ever set. -/
theorem initI18nWithConfig_nil_lang_nil_default_panics_witness :
    InitI18nWithConfig testEnv none "" "" {} = .error .nilDeref :=
  initI18nWithConfig_nil_lang_nil_default_panics testEnv "" "" {} rfl

/-- C4 fails on the code as stated: `SwitchLanguage` (i18n.go) dispatches by
ranging over the Go map `callbackDataMap`, whose iteration order is
unspecified.  The enumeration below is a permutation of a two-entry registry
— hence a possible iteration order — yet the callbacks fire as [20, 10]
while they were registered in the order [10, 20]. -/
theorem switchLanguage_map_order_not_registration_order :
    ([((2 : Nat), (⟨0, false, some 20⟩ : CallbackData)), (1, ⟨0, false, some 10⟩)].Perm
      (({ callbackDataMap := [(1, ⟨0, false, some 10⟩), (2, ⟨0, false, some 20⟩)] } :
        I18nState).callbackDataMap)) ∧
    (SwitchLanguage (fun _ => .ok ())
      [(2, ⟨0, false, some 20⟩), (1, ⟨0, false, some 10⟩)]
      { callbackDataMap := [(1, ⟨0, false, some 10⟩), (2, ⟨0, false, some 20⟩)] }
      English).2 = [20, 10] ∧
    ([20, 10] : List Nat) ≠ [10, 20] := by
  decide

/-- C4 amended: on every successful switch each registered callback is
invoked synchronously exactly once — over any possible map enumeration the
invocations are a permutation of the registry's non-nil callbacks — but the
invocation order is Go's unspecified map order, not necessarily registration
order; the slice-based revision (part_000) does invoke its callbacks exactly
in registration order. -/
theorem switchLanguage_callbacks_invoked_exactly_once
    (load : String → Except String Unit) (iterOrder : List (Nat × CallbackData))
    (s : I18nState) (lang : Lang)
    (hload : load lang.fileName = .ok ())
    (hperm : iterOrder.Perm s.callbackDataMap) :
    ((SwitchLanguage load iterOrder s lang).2).Perm
      (s.callbackDataMap.filterMap (fun kv => kv.2.Callback)) ∧
    ∀ cs : SliceRev.State,
      (SliceRev.SwitchLanguage load cs lang).2 = cs.SwitchCallbacks.filterMap id := by
  constructor
  · simp only [SwitchLanguage, hload]
    exact hperm.filterMap _
  · intro cs
    simp [SliceRev.SwitchLanguage, hload]

/-- Witness for C4's amended statement: one registered callback fires once. -/
theorem switchLanguage_callbacks_invoked_exactly_once_witness :
    ((SwitchLanguage (fun _ => .ok ())
      [(1, ⟨0, false, some 10⟩)]
      { callbackDataMap := [(1, ⟨0, false, some 10⟩)] }
      English).2).Perm [10] :=
  (switchLanguage_callbacks_invoked_exactly_once (fun _ => .ok ())
    [(1, ⟨0, false, some 10⟩)]
    { callbackDataMap := [(1, ⟨0, false, some 10⟩)] }
    English rfl (by decide)).1

/-- C5 fails on the code: a package whose label line matches the pattern but
whose tag string yields no Accept-Language tag is not skipped — building the
descriptor indexes `parseTags(labels[0])[0]` into an empty slice, so both
discovery loops panic with an index-out-of-range instead of continuing with
the remaining files (`testEnv`'s parser rejects `!!!`, as
`language.ParseAcceptLanguage` does, while `good.lang` stays unreached). -/
theorem discovery_unparsable_tag_panics :
    ReadLangLabel "# [i18n] <!!!> <Bad>\n" = ["!!!", "Bad"] ∧
    parseTags testEnv.accept "!!!" = [] ∧
    initI18n testEnv English "./lang/*.lang" {} = .error .indexOutOfRange ∧
    OptRev.packageLoop testEnv ["bad.lang", "good.lang"] = .error .indexOutOfRange := by
  refine ⟨by decide, rfl, rfl, rfl⟩

/-- C6: a glob-matched file whose first line does not match the label pattern
is logged and skipped — it contributes no descriptor, and the remaining files
are processed exactly as if it were absent — in both discovery loops (the
options revision's `PackageListByPatternFunc` loop and `initI18n`'s loop). -/
theorem discovery_skips_file_without_label (env : FileEnv)
    (fs1 fs2 : List String) (bad : String)
    (hopen : env.openOk bad = true)
    (hread : (env.readLine bad).2 = false)
    (hlabel : ReadLangLabel (env.readLine bad).1 = []) :
    OptRev.packageLoop env (fs1 ++ bad :: fs2) = OptRev.packageLoop env (fs1 ++ fs2) ∧
    ∀ s : I18nState,
      initI18nLoop env (fs1 ++ bad :: fs2) s = initI18nLoop env (fs1 ++ fs2) s := by
  have hskip : OptRev.ReadLangFromFileName env bad = .ok none := by
    simp [OptRev.ReadLangFromFileName, hopen, hread, hlabel]
  have hlab : readLangLabel env bad = .ok [] := by
    simp [readLangLabel, hopen, hlabel]
  constructor
  · induction fs1 with
    | nil => simp only [List.nil_append, OptRev.packageLoop, hskip]
    | cons f rest ih =>
      simp only [List.cons_append, OptRev.packageLoop, List.append_eq, ih]
  · induction fs1 with
    | nil =>
      intro s
      simp only [List.nil_append, initI18nLoop, hlab]
    | cons f rest ih =>
      intro s
      simp only [List.cons_append, initI18nLoop, List.append_eq, ih]

/-- Witness for C6: `plain.txt` (first line `hello`) is dropped and the valid
package behind it is still discovered. -/
theorem discovery_skips_file_without_label_witness :
    OptRev.packageLoop plainEnv ["plain.txt", "good.lang"]
      = OptRev.packageLoop plainEnv ["good.lang"] :=
  (discovery_skips_file_without_label plainEnv [] ["good.lang"] "plain.txt"
    rfl rfl (by decide)).1

/-- C7: initialization cannot complete with an empty Known-Languages set:
whatever `InitI18nWithOptions` returns — with or without an `error` value —
carries a non-empty `Languages` list, and when discovery yields zero
descriptors the function panics instead of returning. -/
theorem initI18nWithOptions_nonempty_or_panic (env : FileEnv)
    (lang? : Option OptRev.Lang) (options : List OptRev.GoOption)
    (s : OptRev.State) :
    (∀ s' e?, OptRev.InitI18nWithOptions env lang? options s = .ok (s', e?) →
      s'.Languages ≠ []) ∧
    (∀ opt f, OptRev.processOptions options = .ok opt → opt.plist = some f →
      f opt.langFilesPattern = .ok [] →
      OptRev.InitI18nWithOptions env lang? options s
        = .error (.explicitPanic "[i18n] Cannot load any language")) := by
  constructor
  · intro s' e? h
    simp only [OptRev.InitI18nWithOptions] at h
    split at h
    · exact absurd h (by simp)
    · split at h
      · exact absurd h (by simp)
      · exact absurd h (by simp)
      · split at h
        · exact absurd h (by simp)
        · rename_i packageList hlen
          injection h with h'
          have h1 := congrArg OptRev.State.Languages (congrArg Prod.fst h')
          rw [useLoop_preserves_languages] at h1
          simp only at h1
          rw [← h1]
          simpa [← List.length_eq_zero] using hlen
  · intro opt f h1 h2 h3
    have hpl : OptRev.runPackageList env opt = .ok (.ok []) := by
      simp [OptRev.runPackageList, h2, h3]
    simp [OptRev.InitI18nWithOptions, h1, hpl]

/-- Witness for C7: a pluggable discoverer returning zero descriptors makes
initialization panic. -/
theorem initI18nWithOptions_nonempty_or_panic_witness :
    OptRev.InitI18nWithOptions testEnv none
      [⟨.packageListFunc, none, some (fun _ => .ok [])⟩] {}
      = .error (.explicitPanic "[i18n] Cannot load any language") :=
  (initI18nWithOptions_nonempty_or_panic testEnv none
      [⟨.packageListFunc, none, some (fun _ => .ok [])⟩] {}).2
    ⟨"lang", "lang/*.lang", false, some (fun _ => .ok [])⟩
    (fun _ => .ok []) rfl rfl rfl

end GoI18n
